import Mathlib

/-!
Verification development for a text-to-SQL validation pipeline.

The Python sources are shallowly embedded: SQL text is modelled as
`String` / `List Char`, the mutable pipeline record as the structure
`GraphState`, external collaborators (text oracle, relational store,
schema source) as explicit function parameters, and Python exceptions
as `Except String`.
-/

/-- The six whitespace characters stripped by Python `str.strip()`. -/
def isSpaceChar (c : Char) : Bool :=
  c == ' ' || c == '\t' || c == '\n' || c == '\r' || c == '\x0b' || c == '\x0c'

/-- Python `str.strip()` on a character list. -/
def pyStrip (l : List Char) : List Char :=
  ((l.dropWhile isSpaceChar).reverse.dropWhile isSpaceChar).reverse

/-- Python `str.rstrip(";")`: remove every trailing semicolon. -/
def rstripSemis (l : List Char) : List Char :=
  (l.reverse.dropWhile (fun c => c == ';')).reverse

/-- ASCII word character, the class matched by `\w` in the safety regex. -/
def isWordChar (c : Char) : Bool :=
  ('A' ≤ c && c ≤ 'Z') || ('a' ≤ c && c ≤ 'z') || ('0' ≤ c && c ≤ '9') || c == '_'

/-- Boundary test after a keyword occurrence: end of text or a non-word char. -/
def afterBoundary (kw s : List Char) : Bool :=
  match s.drop kw.length with
  | [] => true
  | d :: _ => !isWordChar d

/-- Scan for a word-boundary-delimited occurrence of `kw`; `prev` is the
character just before the current position (`none` at the start). -/
def containsWordAux (kw : List Char) (prev : Option Char) : List Char → Bool
  | [] => false
  | c :: rest =>
    if (match prev with | none => true | some p => !isWordChar p)
        && kw.isPrefixOf (c :: rest) && afterBoundary kw (c :: rest) then
      true
    else
      containsWordAux kw (some c) rest

/-- Word-boundary search, `re.search` of `\b kw \b`, for an alphabetic keyword `kw`. -/
def containsWord (kw : List Char) (s : List Char) : Bool :=
  containsWordAux kw none s

/-- The dangerous-keyword list of `is_safe_query`, in source order. -/
def dangerous_keywords : List String :=
  ["DROP", "DELETE", "TRUNCATE", "ALTER",
   "CREATE", "INSERT", "UPDATE", "EXEC",
   "EXECUTE", "GRANT", "REVOKE"]

/-- The safety gate `is_safe_query` from `src/utils/helpers.py`: keyword scan on the
upper-cased text, then the multi-statement check on
`sql.strip().rstrip(";")`, then the leading-`SELECT` check. -/
def is_safe_query (sql : String) : Bool × String :=
  let su := sql.data.map Char.toUpper
  match dangerous_keywords.find? (fun kw => containsWord kw.data su) with
  | some kw => (false, "Query contains dangerous keyword: " ++ kw)
  | none =>
    if (rstripSemis (pyStrip sql.data)).contains ';' then
      (false, "Multiple SQL statements not allowed")
    else if !("SELECT".data.isPrefixOf (pyStrip su)) then
      (false, "Only SELECT queries are allowed")
    else
      (true, "Query is safe")

/-- Substring containment, Python `pat in text` on character lists. -/
def containsSeq (pat : List Char) : List Char → Bool
  | [] => pat.isPrefixOf []
  | c :: rest => pat.isPrefixOf (c :: rest) || containsSeq pat rest

/-- Python `text.find(pat)` returning the first occurrence index. -/
def findSub (pat : List Char) : List Char → Option Nat
  | [] => if pat.isPrefixOf [] then some 0 else none
  | c :: rest =>
    if pat.isPrefixOf (c :: rest) then some 0
    else (findSub pat rest).map (· + 1)

/-- First-token test of `ensure_top_limit`: after leading whitespace the
text starts with the keyword `SELECT` (case-insensitively), lexed by the
parser as a DML keyword, i.e. not continued by a word character. -/
def firstTokenIsSelect (sql : List Char) : Bool :=
  let t := sql.dropWhile isSpaceChar
  "SELECT".data.isPrefixOf (t.map Char.toUpper) &&
    (match t.drop 6 with
     | [] => true
     | c :: _ => !isWordChar c)

/-- The limit enforcer `ensure_top_limit` from `src/utils/helpers.py` on a single-statement
text: if the statement is a `SELECT` and its upper-cased text contains
none of the space-bounded substrings `" TOP "`, `" OFFSET "`, `" FETCH "`,
insert `" TOP limit"` right after the first occurrence of `SELECT`
(case-insensitive find); otherwise return the text unchanged. -/
def ensure_top_limit (sql : List Char) (limit : Nat) : List Char :=
  if firstTokenIsSelect sql then
    let up := sql.map Char.toUpper
    if containsSeq " TOP ".data up || containsSeq " OFFSET ".data up
        || containsSeq " FETCH ".data up then
      sql
    else
      match findSub "SELECT".data up with
      | none => sql
      | some i => sql.take (i + 6) ++ (" TOP " ++ Nat.repr limit).data ++ sql.drop (i + 6)
  else sql

/-- The limit enforcer wrapped on `String`, default limit 100 at call sites. -/
def ensure_top_limitS (sql : String) (limit : Nat) : String :=
  String.mk (ensure_top_limit sql.data limit)

/-- Character class of the tokenizer regex `[a-z0-9_]+` (text already
lower-cased). -/
def tokChar (c : Char) : Bool :=
  ('a' ≤ c && c ≤ 'z') || ('0' ≤ c && c ≤ '9') || c == '_'

/-- Accumulate maximal runs of token characters; `cur` holds the current
run reversed. -/
def runsAux (cur : List Char) : List Char → List (List Char)
  | [] => if cur.isEmpty then [] else [cur.reverse]
  | c :: rest =>
    if tokChar c then runsAux (c :: cur) rest
    else if cur.isEmpty then runsAux [] rest
    else cur.reverse :: runsAux [] rest

/-- Maximal token runs, `re.findall` of `[a-z0-9_]+`. -/
def runsOf (l : List Char) : List (List Char) := runsAux [] l

/-- The fixed stopword set of `_tokenize` in `src/agents/schema_agent.py`. -/
def stopwords : List String :=
  ["show", "list", "get", "find", "all", "the", "me", "for", "with", "in", "of", "and", "top"]

/-- Tokenizer `_tokenize` from `src/agents/schema_agent.py`: lower-case, extract
`[a-z0-9_]+` runs, build the set (here: deduplicated list), remove
stopwords. -/
def _tokenize (text : String) : List String :=
  (((runsOf (text.data.map Char.toLower)).map String.mk).dedup).filter
    (fun t => !(stopwords.contains t))

/-- Size of the intersection of two token sets, both given as
deduplicated lists: `len(a & b)`. -/
def interCount (a b : List String) : Nat :=
  (a.filter (fun x => b.contains x)).length

/-- The columns of a table whose token set intersects the question
token set (`col_matches` in `get_relevant_schema`). -/
def colMatches (qT : List String) (cols : List String) : List String :=
  cols.filter (fun c => interCount qT (_tokenize c) ≠ 0)

/-- Table score, `len(q_tokens & t_tokens) + len(col_matches)`. -/
def tableScore (qT : List String) (tname : String) (cols : List String) : Nat :=
  interCount qT (_tokenize tname) + (colMatches qT cols).length

/-- Insert into a list already sorted by score descending, after every
entry of greater-or-equal score (gives the stable descending sort of
Python `sorted(..., reverse=True)` when folded from the left). -/
def insertDesc (x : String × Nat) : List (String × Nat) → List (String × Nat)
  | [] => [x]
  | y :: ys => if x.2 ≤ y.2 then y :: insertDesc x ys else x :: y :: ys

/-- Stable sort by score descending. -/
def sortDesc (l : List (String × Nat)) : List (String × Nat) :=
  l.foldl (fun acc x => insertDesc x acc) []

/-- A schema snapshot for the matcher: table name with its column names
(the bare-name form of column entries supported by the agent). -/
def SchemaTables := List (String × List String)

/-- The single mutable pipeline record (`GraphState` in
`src/graph/state.py`), restricted to the fields the pipeline stages
read or write. Rows are opaque strings. -/
structure GraphState where
  user_query : String
  relevant_tables : List String
  schema_context : String
  no_schema_found : Bool
  generated_sql : Option String
  is_valid : Bool
  validation_message : String
  safety_check : Bool
  execution_approved : Bool
  query_results : Option (List String)
  execution_error : Option String
  messages : List String
  step : String
  requires_human_approval : Bool
  error : Option String
deriving Repr, DecidableEq

/-- The initial state built in `src/app.py` before invoking the workflow. -/
def initState (q : String) : GraphState :=
  { user_query := q
    relevant_tables := []
    schema_context := ""
    no_schema_found := false
    generated_sql := none
    is_valid := false
    validation_message := ""
    safety_check := false
    execution_approved := false
    query_results := none
    execution_error := none
    messages := []
    step := "start"
    requires_human_approval := false
    error := none }

/-- Render one table section of the schema context (`schema_parts`). -/
def contextForTable (qT : List String) (tables : SchemaTables) (tbl : String) : List String :=
  let cols :=
    match tables.find? (fun p => p.1 == tbl) with
    | some p => colMatches qT p.2
    | none => []
  if cols.isEmpty then
    ["### Table: " ++ tbl, "Columns: (no confidently matched columns)"]
  else
    ("### Table: " ++ tbl) :: "Columns:" :: cols.map (fun c => "  - " ++ c)

/-- The grounding matcher `SchemaAgent.get_relevant_schema` from `src/agents/schema_agent.py`:
score every table by token overlap, keep positive scores, select the
top five by stable descending sort, and either abstain (empty selection)
or build the minimal schema context. -/
def get_relevant_schema (tables : SchemaTables) (s : GraphState) : GraphState :=
  let qT := _tokenize s.user_query
  let matched := tables.filterMap (fun p =>
    let sc := tableScore qT p.1 p.2
    if sc > 0 then some (p.1, sc) else none)
  let selected := ((sortDesc matched).map Prod.fst).take 5
  if selected.isEmpty then
    { s with relevant_tables := []
             schema_context := ""
             no_schema_found := true
             messages := s.messages ++
               ["No matching tables or columns found in schema cache for the users question. Aborting SQL generation to avoid hallucination."]
             step := "schema_abstain" }
  else
    { s with relevant_tables := selected
             schema_context :=
               String.intercalate "\n" (selected.flatMap (contextForTable qT tables))
             no_schema_found := false
             step := "schema_retrieved"
             messages := s.messages ++
               ["Schema agent selected tables: " ++ String.intercalate ", " selected] }

/-- Python `str.strip()` on a `String`. -/
def pyStripS (s : String) : String := String.mk (pyStrip s.data)

/-- The text between the end of the first occurrence of `fence` and the
next ```` ``` ```` fence (or the end of the text): the value of
`t.split(fence)[1].split("```")[0]` for the fences used below. -/
def sliceAfterFence (fence : List Char) (t : List Char) : List Char :=
  match findSub fence t with
  | none => t
  | some i =>
    let rest := t.drop (i + fence.length)
    match findSub "```".data rest with
    | none => rest
    | some j => rest.take j

/-- Fenced-code-block extraction applied to the trimmed oracle response:
`split("```sql")[1].split("```")[0].strip()` when a ```` ```sql ````
fence is present, the analogue for a plain ```` ``` ```` fence, and the
raw text otherwise. -/
def extract_sql (t : String) : String :=
  if containsSeq "```sql".data t.data then
    pyStripS (String.mk (sliceAfterFence "```sql".data t.data))
  else if containsSeq "```".data t.data then
    pyStripS (String.mk (sliceAfterFence "```".data t.data))
  else t

/-- The exact sentinel literal of the oracle contract. -/
def sentinel_literal : String :=
  "NO_SCHEMA_MATCH: No correct schema identified to answer the question."

/-- The sentinel test of the module-level `generate_sql`
(`src/agents/text2sql_agent.py` line 137):
`sql_query.strip().startswith("NO_SCHEMA_MATCH")`. -/
def sentinel_check (sql_query : String) : Bool :=
  "NO_SCHEMA_MATCH".data.isPrefixOf (pyStrip sql_query.data)

/-- The sentinel branch of the module-level `generate_sql` (lines
136-146): on a sentinel response clear the SQL, invalidate the state and
log the event; otherwise store the SQL. -/
def apply_sentinel (s : GraphState) (sql_query : String) : GraphState :=
  if sentinel_check sql_query then
    { s with generated_sql := none
             is_valid := false
             validation_message := "No correct schema identified to answer the question."
             messages := s.messages ++ ["LLM returned NO_SCHEMA_MATCH sentinel."] }
  else
    { s with generated_sql := some sql_query }

/-- The synthesis prompt of `Text2SQLAgent.generate_sql`, abridged to its
data dependencies (schema context and user request). -/
def method_prompt (s : GraphState) : String :=
  "You are a senior data engineer generating safe, production-quality T-SQL.\nSCHEMA (authoritative):\n"
    ++ s.schema_context ++ "\nUSER REQUEST:\n" ++ s.user_query

/-- The prompt of the module-level `generate_sql`, abridged likewise. -/
def module_prompt (s : GraphState) : String :=
  "You are generating a SQL query for the following user question:\nUser question: "
    ++ s.user_query ++ "\nSchema context:\n" ++ s.schema_context

/-- The method `Text2SQLAgent.generate_sql` (the one wired into the workflow,
`src/agents/text2sql_agent.py` lines 19-78): always calls the oracle,
extracts and post-processes the SQL, and has no abstention guard and no
sentinel handling. `sanitize` stands for the third-party
`sqlparse`-based `sanitize_sql` formatter; the second component counts
oracle calls. -/
def generate_sql_method (sanitize : String → String) (oracle : String → String)
    (s : GraphState) : GraphState × Nat :=
  let resp := oracle (method_prompt s)
  let q := ensure_top_limitS (sanitize (extract_sql (pyStripS resp))) 100
  ({ s with generated_sql := some q, step := "sql_generated" }, 1)

/-- The module-level `generate_sql` (`src/agents/text2sql_agent.py` lines
80-146): abstains without an oracle call when the schema agent found no
schema, otherwise calls the oracle once and applies the sentinel branch. -/
def generate_sql_module (sanitize : String → String) (oracle : String → String)
    (s : GraphState) : GraphState × Nat :=
  if s.no_schema_found || s.relevant_tables.isEmpty then
    ({ s with generated_sql := none
              is_valid := false
              requires_human_approval := false
              validation_message := "No correct schema identified for the question. Cannot generate SQL without risking hallucination."
              messages := s.messages ++
                ["No correct schema identified for the question. Cannot generate SQL without risking hallucination."] }, 0)
  else
    let resp := oracle (module_prompt s)
    let q := ensure_top_limitS (sanitize (extract_sql (pyStripS resp))) 100
    (apply_sentinel { s with generated_sql := some q, step := "sql_generated" } q, 1)

/-- Model of `extract_tables_from_query` (`src/utils/helpers.py`): the
`sqlparse`-token walk is modelled as collecting the word following each
`FROM`/`JOIN` keyword, stripping bracket quoting. -/
def collectTables : List String → List String
  | [] => []
  | w :: rest =>
    if w.data.map Char.toUpper = "FROM".data || w.data.map Char.toUpper = "JOIN".data then
      match rest with
      | [] => []
      | t :: rest2 =>
        String.mk (t.data.filter (fun c => !(c == '[' || c == ']'))) :: collectTables rest2
    else collectTables rest

/-- Whitespace-splitting of a SQL text into words. -/
def wordsAux (cur : List Char) : List Char → List String
  | [] => if cur.isEmpty then [] else [String.mk cur.reverse]
  | c :: rest =>
    if isSpaceChar c then
      if cur.isEmpty then wordsAux [] rest
      else String.mk cur.reverse :: wordsAux [] rest
    else wordsAux (c :: cur) rest

/-- Table names referenced after `FROM`/`JOIN`, for the audit message. -/
def extract_tables_from_query (sql : String) : List String :=
  collectTables (wordsAux [] sql.data)

/-- Python `sql.upper()` raises `AttributeError` when `generated_sql` is `None`;
the safety check lifted to the optional SQL field. -/
def is_safe_query_opt (sql : Option String) : Except String (Bool × String) :=
  match sql with
  | none => Except.error "NoneType object has no attribute upper"
  | some q => Except.ok (is_safe_query q)

/-- The body of the `try` block of `ValidatorAgent.validate_sql`
(`src/agents/validator_agent.py`): safety check, table extraction,
length check, then success with `requires_human_approval` set. -/
def validate_inner (s : GraphState) : Except String GraphState :=
  match is_safe_query_opt s.generated_sql with
  | Except.error e => Except.error e
  | Except.ok (is_safe, safety_message) =>
    if !is_safe then
      Except.ok { s with is_valid := false
                         validation_message := safety_message
                         safety_check := false
                         step := "validation_failed" }
    else
      let sqlq := s.generated_sql.getD ""
      let tables_used := extract_tables_from_query sqlq
      if sqlq.length < 10 then
        Except.ok { s with is_valid := false
                           validation_message := "Query is too short or empty"
                           safety_check := true
                           step := "validation_failed" }
      else
        Except.ok { s with is_valid := true
                           validation_message :=
                             "Query is valid. Tables used: " ++ String.intercalate ", " tables_used
                           safety_check := true
                           step := "validated"
                           requires_human_approval := true }

/-- The validator `ValidatorAgent.validate_sql`: the `try` body with its `except`
handler, which converts any internal exception into an invalid state. -/
def validate_sql (s : GraphState) : GraphState :=
  match validate_inner s with
  | Except.ok s1 => s1
  | Except.error e =>
    { s with is_valid := false
             validation_message := "Validation error: " ++ e
             safety_check := false
             step := "validation_failed" }

/-- The executor `ExecutorAgent.execute_sql` (`src/agents/executor_agent.py`): park at
`awaiting_approval` unless `execution_approved`; otherwise run the SQL
against the store `db` (second component counts store executions). -/
def execute_sql (db : Option String → Except String (List String))
    (s : GraphState) : GraphState × Nat :=
  if !s.execution_approved then
    ({ s with step := "awaiting_approval" }, 0)
  else
    match db s.generated_sql with
    | Except.ok rows =>
      ({ s with query_results := some rows, execution_error := none, step := "executed" }, 1)
    | Except.error e =>
      ({ s with query_results := none, execution_error := some e, step := "execution_failed" }, 1)

/-- The conditional edge `should_execute` of `create_workflow`
(`src/graph/workflow.py`). -/
def should_execute (s : GraphState) : String :=
  if s.is_valid && s.execution_approved then "executor" else "end"

/-- The validator node followed by its conditional edge: the executor
node runs only when `should_execute` routes to it. -/
def validator_then_executor (db : Option String → Except String (List String))
    (s : GraphState) : GraphState × Nat :=
  let s1 := validate_sql s
  if should_execute s1 = "executor" then execute_sql db s1 else (s1, 0)

/-- The unconditional workflow edge `schema → text2sql` with the node
function the workflow actually registers
(`workflow.add_node("text2sql", text2sql_agent.generate_sql)`). -/
def wired_schema_then_text2sql (tables : SchemaTables)
    (sanitize : String → String) (oracle : String → String)
    (s : GraphState) : GraphState × Nat :=
  generate_sql_method sanitize oracle (get_relevant_schema tables s)

/-- The TTL test `SchemaCache.is_cache_valid`: a snapshot exists and its age is below
the TTL. -/
def is_cache_valid (now ttl : Nat) (cache : Option (Nat × SchemaTables)) : Bool :=
  match cache with
  | none => false
  | some c => now - c.1 < ttl

/-- The refresh operation `SchemaCache.refresh_schema`: pull from the source and stamp the
snapshot, propagating a source failure (`raise`). -/
def refresh_schema (now : Nat) (source : Except String SchemaTables) :
    Except String (Nat × SchemaTables) :=
  match source with
  | Except.ok t => Except.ok (now, t)
  | Except.error e => Except.error e

/-- The read operation `SchemaCache.get_schema`: refresh when forced or when the cache is
invalid, else serve the cached snapshot. -/
def get_schema (force : Bool) (now ttl : Nat) (source : Except String SchemaTables)
    (cache : Option (Nat × SchemaTables)) : Except String (Nat × SchemaTables) :=
  if force || !is_cache_valid now ttl cache then refresh_schema now source
  else
    match cache with
    | some c => Except.ok c
    | none => refresh_schema now source

/-! Helper lemmas shared by the claim theorems. -/

theorem isPrefixOf_append_self (l₁ l₂ : List Char) : l₁.isPrefixOf (l₁ ++ l₂) = true := by
  induction l₁ with
  | nil => simp [List.isPrefixOf]
  | cons a l ih => simp [List.isPrefixOf, ih]

theorem containsSeq_of_isPrefixOf (pat l : List Char) (h : pat.isPrefixOf l = true) :
    containsSeq pat l = true := by
  cases l with
  | nil => simpa [containsSeq] using h
  | cons c rest => simp [containsSeq, h]

theorem containsSeq_append_left (pat l₁ l₂ : List Char) (h : containsSeq pat l₂ = true) :
    containsSeq pat (l₁ ++ l₂) = true := by
  induction l₁ with
  | nil => simpa using h
  | cons c l ih => simp [containsSeq, ih]

theorem mapUpper_TOP : " TOP ".data.map Char.toUpper = " TOP ".data := by decide

theorem toUpper_space (c : Char) (h : isSpaceChar c = true) :
    Char.toUpper c = c ∧ ('S' == Char.toUpper c) = false := by
  simp only [isSpaceChar, Bool.or_eq_true, beq_iff_eq] at h
  rcases h with ((((h | h) | h) | h) | h) | h <;> subst h <;> decide

theorem take_insert_ws (sql : List Char) (n : Nat) :
    sql.take ((sql.takeWhile isSpaceChar).length + n)
      = sql.takeWhile isSpaceChar ++ (sql.dropWhile isSpaceChar).take n := by
  induction sql with
  | nil => simp
  | cons c rest ih =>
    cases hsp : isSpaceChar c with
    | false => simp [List.takeWhile_cons, List.dropWhile_cons, hsp]
    | true => simp [List.takeWhile_cons, List.dropWhile_cons, hsp, Nat.succ_add, ih]

theorem drop_insert_ws (sql : List Char) (n : Nat) :
    sql.drop ((sql.takeWhile isSpaceChar).length + n)
      = (sql.dropWhile isSpaceChar).drop n := by
  induction sql with
  | nil => simp
  | cons c rest ih =>
    cases hsp : isSpaceChar c with
    | false => simp [List.takeWhile_cons, List.dropWhile_cons, hsp]
    | true => simp [List.takeWhile_cons, List.dropWhile_cons, hsp, Nat.succ_add, ih]

theorem findSub_select (sql : List Char)
    (h : "SELECT".data.isPrefixOf ((sql.dropWhile isSpaceChar).map Char.toUpper) = true) :
    findSub "SELECT".data (sql.map Char.toUpper)
      = some (sql.takeWhile isSpaceChar).length := by
  induction sql with
  | nil =>
    simp only [List.dropWhile_nil, List.map_nil] at h
    exact absurd h (by decide)
  | cons c rest ih =>
    cases hsp : isSpaceChar c with
    | false =>
      have h' : "SELECT".data.isPrefixOf ((c :: rest).map Char.toUpper) = true := by
        simpa [List.dropWhile_cons, hsp] using h
      rw [List.map_cons] at h' ⊢
      simp only [findSub]
      rw [h']
      simp [List.takeWhile_cons, hsp]
    | true =>
      have h' : "SELECT".data.isPrefixOf ((rest.dropWhile isSpaceChar).map Char.toUpper) = true := by
        simpa [List.dropWhile_cons, hsp] using h
      have ihh := ih h'
      obtain ⟨hup, hS⟩ := toUpper_space c hsp
      have hpref : "SELECT".data.isPrefixOf (Char.toUpper c :: rest.map Char.toUpper) = false := by
        rw [show "SELECT".data = 'S' :: "ELECT".data from rfl]
        simp [List.isPrefixOf, hS]
      rw [List.map_cons]
      simp only [findSub]
      rw [hpref]
      simp [ihh, List.takeWhile_cons, hsp]

/-! Claim theorems. -/

theorem ensure_top_limit_unchanged_of_topin (r : List Char) (limit : Nat)
    (hc : containsSeq " TOP ".data (r.map Char.toUpper) = true) :
    ensure_top_limit r limit = r := by
  by_cases hr : firstTokenIsSelect r = true
  · simp [ensure_top_limit, hr, hc]
  · simp [ensure_top_limit, hr]

/-- Claim C7: limit enforcement is idempotent — applying
`ensure_top_limit` twice yields the same text as applying it once, for
every input text and every limit, because a second application detects
the `" TOP "` clause inserted by the first and returns its input
unchanged. -/
theorem c7_ensure_top_limit_idempotent (sql : List Char) (limit : Nat) :
    ensure_top_limit (ensure_top_limit sql limit) limit = ensure_top_limit sql limit := by
  by_cases h1 : firstTokenIsSelect sql = true
  · by_cases h2 : (containsSeq " TOP ".data (sql.map Char.toUpper)
        || containsSeq " OFFSET ".data (sql.map Char.toUpper)
        || containsSeq " FETCH ".data (sql.map Char.toUpper)) = true
    · have e : ensure_top_limit sql limit = sql := by
        simp [ensure_top_limit, h1, h2]
      rw [e]; exact e
    · cases hf : findSub "SELECT".data (sql.map Char.toUpper) with
      | none =>
        have e : ensure_top_limit sql limit = sql := by
          simp [ensure_top_limit, h1, h2, hf]
        rw [e]; exact e
      | some i =>
        have e : ensure_top_limit sql limit
            = sql.take (i + 6) ++ (" TOP " ++ Nat.repr limit).data ++ sql.drop (i + 6) := by
          simp [ensure_top_limit, h1, h2, hf]
        have hmap : (sql.take (i + 6) ++ (" TOP " ++ Nat.repr limit).data
              ++ sql.drop (i + 6)).map Char.toUpper
            = (sql.take (i + 6)).map Char.toUpper
              ++ (" TOP ".data ++ ((Nat.repr limit).data.map Char.toUpper
                  ++ (sql.drop (i + 6)).map Char.toUpper)) := by
          simp [List.map_append, String.data_append, mapUpper_TOP, List.append_assoc]
        have hc : containsSeq " TOP ".data
            ((sql.take (i + 6) ++ (" TOP " ++ Nat.repr limit).data
              ++ sql.drop (i + 6)).map Char.toUpper) = true := by
          rw [hmap]
          exact containsSeq_append_left _ _ _
            (containsSeq_of_isPrefixOf _ _ (isPrefixOf_append_self _ _))
        rw [e]
        exact ensure_top_limit_unchanged_of_topin _ limit hc
  · have e : ensure_top_limit sql limit = sql := by
      simp [ensure_top_limit, h1]
    rw [e]; exact e

/-- Claim C8 counterexample: the input `"SELECT\tTOP 2 x"` contains the
keyword `TOP` bounded by whitespace (a tab before, a space after), so
the claim requires it to be returned unchanged; the code checks only for
the space-bounded substring `" TOP "`, misses the tab-bounded
occurrence, and inserts a second limit clause. -/
theorem c8_counterexample :
    ensure_top_limitS "SELECT\tTOP 2 x" 100 ≠ "SELECT\tTOP 2 x"
  ∧ ensure_top_limitS "SELECT\tTOP 2 x" 100 = "SELECT TOP 100\tTOP 2 x" := by
  exact ⟨by decide, by decide⟩

/-- Claim C8 (amended): for every single-statement input (no semicolon)
whose first non-whitespace token is the `SELECT` keyword and whose
upper-cased text contains none of the space-bounded (`' '`-bounded, not
general whitespace) substrings `" TOP "`, `" OFFSET "`, `" FETCH "`, the
limit enforcer inserts `" TOP limit"` immediately after the leading
`SELECT` keyword and leaves every other byte unchanged; and every input
whose upper-cased text contains such a space-bounded substring is
returned unchanged. -/
theorem c8_limit_insertion (sql : List Char) (limit : Nat) :
    (firstTokenIsSelect sql = true →
      (containsSeq " TOP ".data (sql.map Char.toUpper)
        || containsSeq " OFFSET ".data (sql.map Char.toUpper)
        || containsSeq " FETCH ".data (sql.map Char.toUpper)) = false →
      sql.contains ';' = false →
      ensure_top_limit sql limit
        = sql.takeWhile isSpaceChar ++ (sql.dropWhile isSpaceChar).take 6
            ++ (" TOP " ++ Nat.repr limit).data ++ (sql.dropWhile isSpaceChar).drop 6)
  ∧ ((containsSeq " TOP ".data (sql.map Char.toUpper)
        || containsSeq " OFFSET ".data (sql.map Char.toUpper)
        || containsSeq " FETCH ".data (sql.map Char.toUpper)) = true →
      ensure_top_limit sql limit = sql) := by
  constructor
  · intro h1 h2 _hsingle
    have h1' := h1
    simp only [firstTokenIsSelect, Bool.and_eq_true] at h1'
    obtain ⟨hpre, _⟩ := h1'
    have hf := findSub_select sql hpre
    have e : ensure_top_limit sql limit
        = sql.take ((sql.takeWhile isSpaceChar).length + 6)
            ++ (" TOP " ++ Nat.repr limit).data
            ++ sql.drop ((sql.takeWhile isSpaceChar).length + 6) := by
      simp [ensure_top_limit, h1, h2, hf]
    rw [e, take_insert_ws, drop_insert_ws]
  · intro h2
    by_cases hr : firstTokenIsSelect sql = true
    · simp [ensure_top_limit, hr, h2]
    · simp [ensure_top_limit, hr]

/-- Witness for C8: concrete application at `"select x from t"`. -/
theorem c8_limit_insertion_witness :
    ensure_top_limit "select x from t".data 100
      = "select x from t".data.takeWhile isSpaceChar
        ++ ("select x from t".data.dropWhile isSpaceChar).take 6
        ++ (" TOP " ++ Nat.repr 100).data
        ++ ("select x from t".data.dropWhile isSpaceChar).drop 6 :=
  (c8_limit_insertion "select x from t".data 100).1 (by decide) (by decide) (by decide)

/-- Claim C4: any input containing one of the dangerous keywords as a
whole word, in any letter case (captured by the word-boundary search on
the upper-cased text), is rejected, and the message cites the first such
keyword in the listed order (the semantics of `List.find?` over
`dangerous_keywords`); the three concrete spellings of `DROP TABLE` are
all rejected citing `DROP`. -/
theorem c4_keyword_rejection (sql : String) (kw : String)
    (hmem : kw ∈ dangerous_keywords)
    (hc : containsWord kw.data (sql.data.map Char.toUpper) = true) :
    (∃ k, dangerous_keywords.find?
          (fun k => containsWord k.data (sql.data.map Char.toUpper)) = some k
        ∧ is_safe_query sql = (false, "Query contains dangerous keyword: " ++ k))
  ∧ is_safe_query "  drop   table X" = (false, "Query contains dangerous keyword: DROP")
  ∧ is_safe_query "DROP TABLE X" = (false, "Query contains dangerous keyword: DROP")
  ∧ is_safe_query "DrOp Table X" = (false, "Query contains dangerous keyword: DROP") := by
  refine ⟨?_, by decide, by decide, by decide⟩
  have hsome : (dangerous_keywords.find?
      (fun k => containsWord k.data (sql.data.map Char.toUpper))).isSome = true := by
    rw [List.find?_isSome]
    exact ⟨kw, hmem, hc⟩
  obtain ⟨k, hk⟩ := Option.isSome_iff_exists.mp hsome
  exact ⟨k, hk, by simp [is_safe_query, hk]⟩

/-- Witness for C4: concrete application at `"DrOp Table X"` with
keyword `DROP`. -/
theorem c4_keyword_rejection_witness :
    is_safe_query "DrOp Table X" = (false, "Query contains dangerous keyword: DROP") :=
  (c4_keyword_rejection "DrOp Table X" "DROP" (by decide) (by decide)).2.2.2

/-- Claim C5 counterexample: `"SELECT 1;;"` is accepted by the safety
check, because the code strips all trailing semicolons
(`rstrip(";")`), not exactly one as the claim states, so no semicolon
remains and the query is not rejected. -/
theorem c5_counterexample :
    (is_safe_query "SELECT 1;;").1 ≠ false
  ∧ is_safe_query "SELECT 1;;" = (true, "Query is safe") := by
  exact ⟨by decide, by decide⟩

/-- Claim C5 (amended): the multi-statement rule strips all trailing
semicolons (after trimming surrounding whitespace) and rejects the
input exactly when a semicolon remains; `"SELECT 1; SELECT 2"` is
rejected as multiple statements, while `"SELECT 1;"` and
`"SELECT 1;;"` are both accepted. -/
theorem c5_multi_statement (sql : String)
    (hkw : dangerous_keywords.find?
        (fun k => containsWord k.data (sql.data.map Char.toUpper)) = none)
    (hsemi : (rstripSemis (pyStrip sql.data)).contains ';' = true) :
    is_safe_query sql = (false, "Multiple SQL statements not allowed")
  ∧ is_safe_query "SELECT 1; SELECT 2" = (false, "Multiple SQL statements not allowed")
  ∧ is_safe_query "SELECT 1;" = (true, "Query is safe")
  ∧ is_safe_query "SELECT 1;;" = (true, "Query is safe") := by
  refine ⟨?_, by decide, by decide, by decide⟩
  simp only [is_safe_query]
  rw [hkw, hsemi]
  rfl

/-- Witness for C5: concrete application at `"SELECT 1; SELECT 2"`. -/
theorem c5_multi_statement_witness :
    is_safe_query "SELECT 1; SELECT 2" = (false, "Multiple SQL statements not allowed") :=
  (c5_multi_statement "SELECT 1; SELECT 2" (by decide) (by decide)).1

/-- Claim C1 (code bug): for the question `"qqq zzz"` against a snapshot
holding table `client` with column `city`, the grounding matcher
abstains (`no_schema_found` is set and the abstention message is
recorded), yet the workflow edge `schema → text2sql` invokes the node
function the workflow registers — the unguarded method
`Text2SQLAgent.generate_sql` — which calls the text oracle once; the
guarded module-level `generate_sql`, which would make zero oracle calls
on this state, is not the function wired into the workflow. -/
theorem c1_oracle_called_after_abstention :
    (get_relevant_schema [("client", ["city"])] (initState "qqq zzz")).no_schema_found = true
  ∧ (get_relevant_schema [("client", ["city"])] (initState "qqq zzz")).messages
      = ["No matching tables or columns found in schema cache for the users question. Aborting SQL generation to avoid hallucination."]
  ∧ (wired_schema_then_text2sql [("client", ["city"])] id (fun _ => "SELECT 1")
      (initState "qqq zzz")).2 = 1
  ∧ (generate_sql_module id (fun _ => "SELECT 1")
      (get_relevant_schema [("client", ["city"])] (initState "qqq zzz"))).2 = 0 := by
  exact ⟨by decide, by decide, by decide, by decide⟩

/-- Claim C2 counterexample: the response text
`"NO_SCHEMA_MATCH: schema missing."` deviates from the exact sentinel
literal, yet the synthesis stage treats it as abstention (clears the
SQL and invalidates the state), because the code tests only the prefix
`NO_SCHEMA_MATCH` of the trimmed text, not equality with the full
literal. -/
theorem c2_counterexample :
    sentinel_check "NO_SCHEMA_MATCH: schema missing." = true
  ∧ "NO_SCHEMA_MATCH: schema missing." ≠ sentinel_literal
  ∧ (apply_sentinel (initState "q") "NO_SCHEMA_MATCH: schema missing.").generated_sql = none
  ∧ (apply_sentinel (initState "q") "NO_SCHEMA_MATCH: schema missing.").is_valid = false := by
  exact ⟨by decide, by decide, by decide, by decide⟩

/-- Claim C2 (amended): the synthesis stage treats a processed oracle
response as abstention exactly when its trimmed text starts with
`NO_SCHEMA_MATCH`; in that case it clears `generated_sql`, sets
`is_valid` to false and records the user-facing message, and otherwise
it stores the SQL unchanged. The exact sentinel literal satisfies the
prefix test. -/
theorem c2_sentinel_handling (s : GraphState) (sql_query : String) :
    (sentinel_check sql_query = true →
      apply_sentinel s sql_query
        = { s with generated_sql := none,
                   is_valid := false,
                   validation_message := "No correct schema identified to answer the question.",
                   messages := s.messages ++ ["LLM returned NO_SCHEMA_MATCH sentinel."] })
  ∧ (sentinel_check sql_query = false →
      apply_sentinel s sql_query = { s with generated_sql := some sql_query })
  ∧ sentinel_check sentinel_literal = true := by
  refine ⟨fun h => by simp [apply_sentinel, h], fun h => by simp [apply_sentinel, h], by decide⟩

/-- Witness for C2: concrete application at the exact sentinel literal. -/
theorem c2_sentinel_handling_witness :
    apply_sentinel (initState "q") sentinel_literal
      = { initState "q" with
            generated_sql := none,
            is_valid := false,
            validation_message := "No correct schema identified to answer the question.",
            messages := (initState "q").messages ++ ["LLM returned NO_SCHEMA_MATCH sentinel."] } :=
  (c2_sentinel_handling (initState "q") sentinel_literal).1 (by decide)

/-- Claim C6 counterexample: for the question
`"show clients in new york"` and a snapshot with table `client` and
column `city`, the core scorer (which applies no singular/plural or
case folding) gives table `client` score 0 — the token `clients` does
not match the table-name token `client` — so the score is not at least
2 and grounding abstains, contrary to the claim. -/
theorem c6_counterexample :
    tableScore (_tokenize "show clients in new york") "client" ["city"] = 0
  ∧ ¬ 2 ≤ tableScore (_tokenize "show clients in new york") "client" ["city"]
  ∧ (get_relevant_schema [("client", ["city"])]
      (initState "show clients in new york")).no_schema_found = true := by
  exact ⟨by decide, by decide, by decide⟩

/-- Claim C6 (amended): for the question `"show client city in new york"`
(whose tokens match the table name and the column literally, as the
folding-free core scoring path requires) against the same snapshot, the
scorer assigns table `client` a score of at least 2 (name overlap plus
one matched column) and grounding selects `client` without abstaining. -/
theorem c6_grounding_score :
    2 ≤ tableScore (_tokenize "show client city in new york") "client" ["city"]
  ∧ (get_relevant_schema [("client", ["city"])]
      (initState "show client city in new york")).no_schema_found = false
  ∧ (get_relevant_schema [("client", ["city"])]
      (initState "show client city in new york")).relevant_tables = ["client"] := by
  exact ⟨by decide, by decide, by decide⟩

/-- Claim C9 counterexample: with an existing (stale) snapshot in the
cache and a failing refresh source, `get_schema` propagates the failure
to the caller instead of serving the previous snapshot. -/
theorem c9_counterexample :
    get_schema false 10000 3600 (Except.error "SourceUnavailable") (some (0, [("t", ["c"])]))
      = Except.error "SourceUnavailable"
  ∧ (some (0, [("t", ["c"])]) : Option (Nat × SchemaTables)) ≠ none := by
  exact ⟨by rfl, by simp⟩

/-- Claim C9 (amended): when the TTL has expired (or no snapshot exists)
and the refresh source fails, `get_schema` propagates the failure to the
caller regardless of whether a previous snapshot exists; the previous
snapshot is served only while the TTL is still valid. -/
theorem c9_refresh_failure (now ttl : Nat) (e : String)
    (cache : Option (Nat × SchemaTables)) :
    (is_cache_valid now ttl cache = false →
      get_schema false now ttl (Except.error e) cache = Except.error e)
  ∧ (∀ c, cache = some c → is_cache_valid now ttl cache = true →
      ∀ src, get_schema false now ttl src cache = Except.ok c) := by
  constructor
  · intro h
    simp [get_schema, h, refresh_schema]
  · intro c hc h src
    subst hc
    simp [get_schema, h]

/-- Witness for C9: concrete application with an expired snapshot and a
failing source. -/
theorem c9_refresh_failure_witness :
    get_schema false 10000 3600 (Except.error "SourceUnavailable") (some (0, [("t", ["c"])]))
      = Except.error "SourceUnavailable" :=
  (c9_refresh_failure 10000 3600 "SourceUnavailable" (some (0, [("t", ["c"])]))).1 (by rfl)

theorem validate_sql_requires_approval (s : GraphState) :
    (validate_sql s).is_valid = true → (validate_sql s).requires_human_approval = true := by
  unfold validate_sql validate_inner
  cases hsafe : is_safe_query_opt s.generated_sql with
  | error e => simp
  | ok p =>
    obtain ⟨flag, msg⟩ := p
    cases flag with
    | false => simp
    | true =>
      by_cases hlen : (s.generated_sql.getD "").length < 10
      · simp [hlen]
      · simp [hlen]

/-- Claim C3: SQL is executed only behind the validation and approval
gates — if the executor node run after the validator performs a store
execution, the validated state had `is_valid` and `execution_approved`
both true; a successful validation sets `requires_human_approval`; and
an executor invoked without approval parks the state at
`awaiting_approval` with zero store executions. -/
theorem c3_execution_gate (db : Option String → Except String (List String)) (s : GraphState) :
    ((validator_then_executor db s).2 = 1 →
      (validate_sql s).is_valid = true ∧ (validate_sql s).execution_approved = true)
  ∧ ((validate_sql s).is_valid = true → (validate_sql s).requires_human_approval = true)
  ∧ (s.execution_approved = false →
      execute_sql db s = ({ s with step := "awaiting_approval" }, 0)) := by
  refine ⟨?_, validate_sql_requires_approval s, ?_⟩
  · intro h
    by_cases hcond : ((validate_sql s).is_valid && (validate_sql s).execution_approved) = true
    · rw [Bool.and_eq_true] at hcond
      exact hcond
    · exfalso
      have hse : should_execute (validate_sql s) = "end" := by
        simp [should_execute, hcond]
      have h0 : (validator_then_executor db s).2 = 0 := by
        simp [validator_then_executor, hse]
      omega
  · intro h
    simp [execute_sql, h]

/-- Witness for C3: the executor without approval at a concrete state. -/
theorem c3_execution_gate_witness :
    execute_sql (fun _ => Except.ok []) (initState "q")
      = ({ initState "q" with step := "awaiting_approval" }, 0) :=
  (c3_execution_gate (fun _ => Except.ok []) (initState "q")).2.2 (by decide)

/-- Claim C10: the validator is total at its public interface — any
failure of the inner `try` body is converted by the handler into
`is_valid = false`, a message describing the error, and
`step = validation_failed`; in particular a state whose `generated_sql`
is `None` (the safety check raises on it) is converted rather than
propagated, and an empty SQL string is rejected as invalid. -/
theorem c10_validator_total (s : GraphState) :
    (∀ e, validate_inner s = Except.error e →
      validate_sql s = { s with is_valid := false,
                                validation_message := "Validation error: " ++ e,
                                safety_check := false,
                                step := "validation_failed" })
  ∧ (s.generated_sql = none →
      (validate_sql s).is_valid = false
      ∧ (validate_sql s).step = "validation_failed"
      ∧ (validate_sql s).validation_message
          = "Validation error: NoneType object has no attribute upper")
  ∧ (s.generated_sql = some "" →
      (validate_sql s).is_valid = false ∧ (validate_sql s).step = "validation_failed") := by
  refine ⟨?_, ?_, ?_⟩
  · intro e h
    simp [validate_sql, h]
  · intro h
    have hinner : validate_inner s = Except.error "NoneType object has no attribute upper" := by
      simp [validate_inner, is_safe_query_opt, h]
    simp [validate_sql, hinner]
  · intro h
    have hval : is_safe_query "" = (false, "Only SELECT queries are allowed") := by decide
    have hinner : validate_inner s
        = Except.ok { s with is_valid := false,
                             validation_message := "Only SELECT queries are allowed",
                             safety_check := false,
                             step := "validation_failed" } := by
      simp [validate_inner, is_safe_query_opt, h, hval]
    simp [validate_sql, hinner]

/-- Witness for C10: concrete application at a state with a null
`generated_sql`. -/
theorem c10_validator_total_witness :
    (validate_sql { initState "q" with generated_sql := none }).is_valid = false
  ∧ (validate_sql { initState "q" with generated_sql := none }).step = "validation_failed"
  ∧ (validate_sql { initState "q" with generated_sql := none }).validation_message
      = "Validation error: NoneType object has no attribute upper" :=
  (c10_validator_total { initState "q" with generated_sql := none }).2.1 (by decide)
